import Mathlib

/-!
Verification of the jokes MCP server (`src/index.ts`).

The server registers seven tools on an `McpServer`, each a thin handler
around one outbound `fetch`, and multiplexes SSE sessions through a
mutable `transports` map keyed by session id.  We embed the JSON values
handlers inspect, the JavaScript access/truthiness semantics they rely
on, each tool handler as a pure function from its (optional) argument
and the outcome of its single outbound call to a `HandlerOutput`
(the list of URLs fetched plus either a returned `ToolResult` or a
propagated fault), and the session-transport map operations.
-/

namespace JokesMCP

/-- JSON values as produced by `response.json()`. -/
inductive Json where
  | null : Json
  | bool : Bool → Json
  | num : Int → Json
  | str : String → Json
  | arr : List Json → Json
  | obj : List (String × Json) → Json

/-- JavaScript truthiness of a defined JSON value
(`null`, `false`, `0`, `""` are falsy). -/
def jsTruthyJ : Json → Bool
  | .null => false
  | .bool b => b
  | .num n => decide (n ≠ 0)
  | .str s => !(s == "")
  | .arr _ => true
  | .obj _ => true

/-- JavaScript truthiness of a possibly-undefined value
(`Option Json`, `none` standing for `undefined`). -/
def jsTruthy : Option Json → Bool
  | none => false
  | some j => jsTruthyJ j

/-- Truthiness of a possibly-undefined string argument
(the `if (!city)` / `if (!zip)` guards). -/
def jsTruthyStr : Option String → Bool
  | none => false
  | some s => !(s == "")

/-- Template-literal interpolation of a possibly-missing string
(`undefined` interpolates as the text `"undefined"`). -/
def interpStr : Option String → String
  | none => "undefined"
  | some s => s

mutual
/-- JavaScript `String(v)` on a defined JSON value. -/
def jsToStringJ : Json → String
  | .null => "null"
  | .bool b => if b then "true" else "false"
  | .num n => toString n
  | .str s => s
  | .arr xs => jsArrJoinElems xs
  | .obj _ => "[object Object]"

/-- `Array.prototype.toString`: elements joined by a comma,
`null` rendered as the empty string. -/
def jsArrJoinElems : List Json → String
  | [] => ""
  | [j] => (match j with | .null => "" | j => jsToStringJ j)
  | j :: rest =>
      (match j with | .null => "" | j => jsToStringJ j) ++ "," ++ jsArrJoinElems rest
end

/-- JavaScript `String(v)` on a possibly-undefined value. -/
def jsToString : Option Json → String
  | none => "undefined"
  | some j => jsToStringJ j

/-- Property access `v[key]`: throws a `TypeError` when the base is
`undefined` or `null`; otherwise yields the field (or `undefined`). -/
def jsGet (v : Option Json) (key : String) : Except String (Option Json) :=
  match v with
  | none => .error ("Cannot read properties of undefined (reading " ++ key ++ ")")
  | some .null => .error ("Cannot read properties of null (reading " ++ key ++ ")")
  | some (.obj fields) => .ok (fields.lookup key)
  | some (.arr xs) => .ok (if key == "length" then some (.num xs.length) else none)
  | some (.str s) => .ok (if key == "length" then some (.num s.length) else none)
  | some _ => .ok none

/-- Index access `v[0]`: throws on `undefined`/`null`; on an array gives
the head element, on an object the `"0"` field, on a string its first
character. -/
def jsIndex0 : Option Json → Except String (Option Json)
  | none => .error "Cannot read properties of undefined (reading 0)"
  | some .null => .error "Cannot read properties of null (reading 0)"
  | some (.arr xs) => .ok xs.head?
  | some (.obj fields) => .ok (fields.lookup "0")
  | some (.str s) => .ok (if s == "" then none else some (.str (String.singleton (s.get 0))))
  | some _ => .ok none

/-- Field access through optional chaining `base?.key` with `base` a
defined value: `undefined`/`null` bases shortcut to `undefined`. -/
def jsGetChain (base : Option Json) (key : String) : Option Json :=
  match base with
  | none => none
  | some .null => none
  | some (.obj fields) => fields.lookup key
  | some (.arr xs) => if key == "length" then some (.num xs.length) else none
  | some (.str s) => if key == "length" then some (.num s.length) else none
  | some _ => none

/-- One item of a tool result; `text` carries the raw JavaScript value
placed in the `text` field (handlers sometimes put a non-string there). -/
structure ContentItem where
  type : String
  text : Option Json

/-- A result returned by a tool handler: an ordered list of content items. -/
structure ToolResult where
  content : List ContentItem

/-- A single `{type: "text", text: s}` item. -/
def mkText (s : String) : ContentItem := ⟨"text", some (.str s)⟩

/-- A result holding exactly one text item. -/
def textResult (s : String) : ToolResult := ⟨[mkText s]⟩

/-- Outcome of the single outbound `fetch` + `response.json()` a handler
performs: the fetch rejects, the body fails to parse as JSON, or a
response with a status flag and parsed JSON body. -/
inductive FetchOutcome where
  | networkError : String → FetchOutcome
  | jsonError : Bool → String → FetchOutcome
  | response : Bool → Json → FetchOutcome

/-- What running a handler produces: the URLs it fetched, and either a
returned `ToolResult` or a fault that propagated out uncaught
(`Except.error` carries the error message). -/
structure HandlerOutput where
  calls : List String
  result : Except String ToolResult

/-- The `catch` block shared shape: a fault becomes a single text item
`prefixMsg ++ message`. -/
def catchToText (prefixMsg : String) (e : Except String ToolResult) : ToolResult :=
  match e with
  | .ok r => r
  | .error msg => textResult (prefixMsg ++ msg)

/-- The `try` block of the `get-zip-info` handler: a thrown error at any
step (non-ok status, JSON parse, property access on `undefined`/`null`)
short-circuits to `Except.error` with its message, which the `catch`
below converts to text. -/
def zipTry (zip : String) (upstream : FetchOutcome) : Except String ToolResult :=
  match upstream with
  | .networkError msg => .error msg
  | .jsonError ok msg => if !ok then .error "ZIP code not found" else .error msg
  | .response ok body =>
      if !ok then .error "ZIP code not found"
      else
        match jsGet (some body) "places" with
        | .error msg => .error msg
        | .ok places =>
          match jsIndex0 places with
          | .error msg => .error msg
          | .ok place =>
            match jsGet place "place name" with
            | .error msg => .error msg
            | .ok placeName =>
              match jsGet place "state abbreviation" with
              | .error msg => .error msg
              | .ok stateAbbr =>
                .ok (textResult (zip ++ ": " ++ jsToString placeName ++ ", " ++
                  jsToString stateAbbr))

/-- The `get-zip-info` tool handler (`src/index.ts:95-141`). -/
def getZipInfo (zip? : Option String) (upstream : FetchOutcome) : HandlerOutput :=
  if !jsTruthyStr zip? then
    { calls := [], result := .ok (textResult "Please provide a ZIP code.") }
  else
    let zip := interpStr zip?
    { calls := ["http://api.zippopotam.us/us/" ++ zip],
      result := .ok (catchToText ("Error fetching data for ZIP code " ++ zip ++ ": ")
        (zipTry zip upstream)) }

/-- Upper-case hexadecimal digit. -/
def hexUpper (n : Nat) : Char :=
  if n < 10 then Char.ofNat (48 + n) else Char.ofNat (55 + n)

/-- Characters `encodeURIComponent` leaves unescaped. -/
def isURIUnreserved (c : Char) : Bool :=
  c.isAlpha || c.isDigit ||
    c ∈ [Char.ofNat 45, Char.ofNat 95, Char.ofNat 46, Char.ofNat 33,
         Char.ofNat 126, Char.ofNat 42, Char.ofNat 39, Char.ofNat 40, Char.ofNat 41]

/-- Percent-encode the UTF-8 bytes of one character. -/
def pctEncodeChar (c : Char) : String :=
  String.join (((String.singleton c).toUTF8.toList).map (fun b =>
    "%" ++ String.singleton (hexUpper (b.toNat / 16)) ++ String.singleton (hexUpper (b.toNat % 16))))

/-- JavaScript `encodeURIComponent`. -/
def encodeURIComponent (s : String) : String :=
  String.join (s.data.map (fun c =>
    if isURIUnreserved c then String.singleton c else pctEncodeChar c))

/-- The `try` block of the `get-city-details` handler (note: it never
checks `response.ok`; `!data.length` triggers a thrown `City not found`). -/
def cityTry (upstream : FetchOutcome) : Except String ToolResult :=
  match upstream with
  | .networkError msg => .error msg
  | .jsonError _ msg => .error msg
  | .response _ body =>
      match jsGet (some body) "length" with
      | .error msg => .error msg
      | .ok len =>
        if !jsTruthy len then .error "City not found"
        else
          match jsIndex0 (some body) with
          | .error msg => .error msg
          | .ok result =>
            match jsGet result "display_name" with
            | .error msg => .error msg
            | .ok displayName =>
              match jsGet result "lat" with
              | .error msg => .error msg
              | .ok lat =>
                match jsGet result "lon" with
                | .error msg => .error msg
                | .ok lon =>
                  .ok (textResult (jsToString displayName ++ " — Coordinates: (" ++
                    jsToString lat ++ ", " ++ jsToString lon ++ ")"))

/-- The `get-city-details` tool handler (`src/index.ts:48-92`). -/
def getCityDetails (city? : Option String) (upstream : FetchOutcome) : HandlerOutput :=
  if !jsTruthyStr city? then
    { calls := [], result := .ok (textResult "Please provide a city name.") }
  else
    let city := interpStr city?
    { calls := ["https://nominatim.openstreetmap.org/search?city=" ++
        encodeURIComponent city ++ "&format=json&limit=1"],
      result := .ok (catchToText "Error fetching city info: " (cityTry upstream)) }

/-- The `get-chuck-joke` tool handler (`src/index.ts:144-159`): no
try/catch, the single `text` item carries `data.value` raw. -/
def getChuckJoke (upstream : FetchOutcome) : HandlerOutput :=
  { calls := ["https://api.chucknorris.io/jokes/random"],
    result :=
      match upstream with
      | .networkError msg => .error msg
      | .jsonError _ msg => .error msg
      | .response _ body => (jsGet (some body) "value").map (fun v => ⟨[⟨"text", v⟩]⟩) }

/-- The `get-chuck-categories` tool handler (`src/index.ts:162-177`):
no try/catch; `data.join(", ")` throws a `TypeError` unless the body is
an array. -/
def getChuckCategories (upstream : FetchOutcome) : HandlerOutput :=
  { calls := ["https://api.chucknorris.io/jokes/categories"],
    result :=
      match upstream with
      | .networkError msg => .error msg
      | .jsonError _ msg => .error msg
      | .response _ body =>
          match body with
          | .arr xs => .ok (textResult (String.intercalate ", "
              (xs.map (fun j => match j with | .null => "" | j => jsToStringJ j))))
          | _ => .error "data.join is not a function" }

/-- The `get-dad-joke` tool handler (`src/index.ts:180-199`): no
try/catch, text carries `data.joke` raw. -/
def getDadJoke (upstream : FetchOutcome) : HandlerOutput :=
  { calls := ["https://icanhazdadjoke.com/"],
    result :=
      match upstream with
      | .networkError msg => .error msg
      | .jsonError _ msg => .error msg
      | .response _ body => (jsGet (some body) "joke").map (fun v => ⟨[⟨"text", v⟩]⟩) }

/-- The `get-yo-mama-joke` tool handler (`src/index.ts:245-262`): no
try/catch, text carries `data.joke` raw. -/
def getYoMamaJoke (upstream : FetchOutcome) : HandlerOutput :=
  { calls := ["https://www.yomama-jokes.com/api/v1/jokes/random"],
    result :=
      match upstream with
      | .networkError msg => .error msg
      | .jsonError _ msg => .error msg
      | .response _ body => (jsGet (some body) "joke").map (fun v => ⟨[⟨"text", v⟩]⟩) }

/-- `Array.isArray(data) && data.length > 0` from `get-country-data`. -/
def jsIsNonemptyArray : Json → Bool
  | .arr (_ :: _) => true
  | _ => false

/-- `Number.prototype.toLocaleString` digit grouping, built over the
reversed digit list: a comma after every three digits. -/
def groupRev : List Char → List Char
  | a :: b :: c :: d :: rest => a :: b :: c :: Char.ofNat 44 :: groupRev (d :: rest)
  | l => l

/-- `n.toLocaleString()` for an integer. -/
def intToLocaleString (n : Int) : String :=
  let digits := (toString n.natAbs).data
  let grouped := String.mk (groupRev digits.reverse).reverse
  if n < 0 then "-" ++ grouped else grouped

/-- `v.toLocaleString()` on a truthy JSON value (every JavaScript value
has `toLocaleString`; on non-numbers it behaves like `toString`). -/
def jsToLocaleString : Json → String
  | .num n => intToLocaleString n
  | j => jsToStringJ j

/-- The `get-country-data` tool handler (`src/index.ts:201-243`): no
argument validation and no try/catch; a missing `name` is interpolated
into the URL as `"undefined"`. -/
def getCountryData (name? : Option String) (upstream : FetchOutcome) : HandlerOutput :=
  { calls := ["https://restcountries.com/v3.1/name/" ++ interpStr name?],
    result :=
      match upstream with
      | .networkError msg => .error msg
      | .jsonError _ msg => .error msg
      | .response _ body =>
          let country : Json :=
            match body with
            | .arr (x :: _) => x
            | _ => .null
          if !jsTruthyJ country then
            .ok (textResult ("No data found for " ++ interpStr name?))
          else
            let commonName := jsGetChain (jsGetChain (some country) "name") "common"
            let capital := jsGetChain (some country) "capital"
            let region := jsGetChain (some country) "region"
            let population := jsGetChain (some country) "population"
            let flagPng := jsGetChain (jsGetChain (some country) "flags") "png"
            .ok ⟨[
              ⟨"text", if jsTruthy commonName then commonName else some (.str "No name found")⟩,
              ⟨"text", if jsTruthy capital then
                  (match jsIndex0 capital with | .ok v => v | .error _ => none)
                else some (.str "No capital found")⟩,
              ⟨"text", if jsTruthy region then region else some (.str "No region found")⟩,
              ⟨"text", if jsTruthy population then
                  some (.str (jsToLocaleString (population.getD .null)))
                else some (.str "No population found")⟩,
              ⟨"text", if jsTruthy flagPng then flagPng else some (.str "No flag found")⟩]⟩ }

/-- An SSE transport: its session id plus an identity for the `res`
output stream it owns. -/
structure Transport where
  sessionId : String
  channel : Nat

/-- The `transports` lookup object: session id keys to transports, as an
ordered association list (JavaScript object keys are unique). -/
abbrev TransportMap := List (String × Transport)

/-- `transports[sid]` lookup. -/
def lookupTransport (sid : String) (m : TransportMap) : Option Transport :=
  m.lookup sid

/-- JavaScript property assignment `obj[k] = v`: replaces the value in
place when the key exists, otherwise appends the key. -/
def setKey (sid : String) (t : Transport) : TransportMap → TransportMap
  | [] => [(sid, t)]
  | (k, v) :: rest => if k = sid then (sid, t) :: rest else (k, v) :: setKey sid t rest

/-- `transports[transport.sessionId] = transport` (`src/index.ts:277`). -/
def registerTransport (t : Transport) (m : TransportMap) : TransportMap :=
  setKey t.sessionId t m

/-- `delete transports[transport.sessionId]` run by the `close` handler
(`src/index.ts:278-280`); `delete` on a JavaScript object never throws. -/
def removeTransport (sid : String) (m : TransportMap) : TransportMap :=
  m.filter (fun p => p.1 ≠ sid)

/-- States of `transports` reachable from the empty map by the SSE
endpoint registering transports and `close` handlers removing them. -/
inductive ReachableT : TransportMap → Prop where
  | empty : ReachableT []
  | register (t : Transport) {m : TransportMap} :
      ReachableT m → ReachableT (registerTransport t m)
  | unregister (sid : String) {m : TransportMap} :
      ReachableT m → ReachableT (removeTransport sid m)

/-- Response of the `POST /jokes` route. -/
inductive PostResponse where
  | handled : Transport → PostResponse
  | badRequest : Nat → String → PostResponse

/-- The `POST /jokes` route (`src/index.ts:284-292`): forwards to the
matching transport, else responds 400 with a plain-text body. -/
def handlePostJokes (transports : TransportMap) (sessionId : String) : PostResponse :=
  match lookupTransport sessionId transports with
  | some t => .handled t
  | none => .badRequest 400 "No transport found for sessionId"

/-- Tool names of the declarative descriptor list passed to the
`McpServer` constructor (`src/index.ts:10-46`). -/
def declaredToolNames : List String :=
  ["get-chuck-joke", "get-chuck-categories", "get-dad-joke", "get-yo-mama-joke",
   "get-country-data", "get-zip-info", "get-city-details"]

/-- Tool names registered imperatively through `server.tool(...)` calls
(`src/index.ts:48-262`), in registration order. -/
def registeredToolNames : List String :=
  ["get-city-details", "get-zip-info", "get-chuck-joke", "get-chuck-categories",
   "get-dad-joke", "get-country-data", "get-yo-mama-joke"]

/-- Outcome of dispatching a tool invocation by name. -/
inductive InvokeOutcome where
  | unknownTool : InvokeOutcome
  | dispatched : String → InvokeOutcome

/-- Modelled from the spec: the tool dispatcher (`invoke(name, args)`,
spec §4.2) lives in the `@modelcontextprotocol/sdk` dependency, not in
this repository; only the registrations are in `src/index.ts`.  Per the
spec it fails with `UnknownTool` when the name is not registered, as a
non-fatal error result that leaves the session state untouched. -/
def invokeTool (name : String) (transports : TransportMap) :
    InvokeOutcome × TransportMap :=
  if name ∈ registeredToolNames then (.dispatched name, transports)
  else (.unknownTool, transports)

/-- Whether a handler run returned a `ToolResult` (as opposed to
propagating a fault). -/
def isOkE : Except String ToolResult → Bool
  | .ok _ => true
  | .error _ => false

/-- Whether the chain `data.places[0]["place name"]` throws inside the
`get-zip-info` try block: the `places` field is `undefined`/`null`, or
`places[0]` is `undefined`/`null`. -/
def placesAccessThrows (body : Json) : Bool :=
  match jsGet (some body) "places" with
  | .error _ => true
  | .ok places =>
    match jsIndex0 places with
    | .error _ => true
    | .ok place =>
      match jsGet place "place name" with
      | .error _ => true
      | .ok _ => false

/-- The stub upstream body of the spec's ZIP example:
`{places:[{"place name":"Beverly Hills","state abbreviation":"CA"}]}`. -/
def zipExampleBody : Json :=
  .obj [("places", .arr [.obj [("place name", .str "Beverly Hills"),
    ("state abbreviation", .str "CA")]])]

/-- A body whose `places` field is an object keyed `"0"` rather than an
array: not a non-empty `places` array, yet `places[0]` resolves. -/
def zipObjectPlacesBody : Json :=
  .obj [("places", .obj [("0", .obj [("place name", .str "Beverly Hills"),
    ("state abbreviation", .str "CA")])])]

/-! ## Theorems -/

/-- C1 (counterexample).  Not every tool handler catches outbound
faults: `get-chuck-joke` has no try/catch, so a failing `fetch`
propagates out of the handler as an unhandled fault instead of becoming
a `ToolResult` with an error text. -/
theorem c1_counterexample :
    (getChuckJoke (FetchOutcome.networkError "fetch failed")).result =
      Except.error "fetch failed" := rfl

/-- C1 (amended).  The two handlers that do wrap their outbound call in
try/catch — `get-zip-info` and `get-city-details` — never propagate a
fault: on every argument and upstream outcome they return a
`ToolResult`, and on a network failure (and, for `get-zip-info`, on a
non-success status) the single text item embeds a human-readable error
message. -/
theorem c1_catching_handlers_never_propagate (z c : Option String) (u : FetchOutcome) :
    isOkE (getZipInfo z u).result = true ∧
    isOkE (getCityDetails c u).result = true ∧
    (∀ zip msg, zip ≠ "" →
      (getZipInfo (some zip) (FetchOutcome.networkError msg)).result =
        Except.ok (textResult ("Error fetching data for ZIP code " ++ zip ++ ": " ++ msg))) ∧
    (∀ zip body, zip ≠ "" →
      (getZipInfo (some zip) (FetchOutcome.response false body)).result =
        Except.ok (textResult
          ("Error fetching data for ZIP code " ++ zip ++ ": " ++ "ZIP code not found"))) ∧
    (∀ city msg, city ≠ "" →
      (getCityDetails (some city) (FetchOutcome.networkError msg)).result =
        Except.ok (textResult ("Error fetching city info: " ++ msg))) := by
  refine ⟨?_, ?_, ?_, ?_, ?_⟩
  · unfold getZipInfo
    split <;> rfl
  · unfold getCityDetails
    split <;> rfl
  · intro zip msg h
    have hz : (zip == "") = false := by simpa using h
    simp [getZipInfo, jsTruthyStr, hz, interpStr, zipTry, catchToText]
  · intro zip body h
    have hz : (zip == "") = false := by simpa using h
    simp [getZipInfo, jsTruthyStr, hz, interpStr, zipTry, catchToText]
  · intro city msg h
    have hc : (city == "") = false := by simpa using h
    simp [getCityDetails, jsTruthyStr, hc, interpStr, cityTry, catchToText]

/-- C1 (witness).  The amended theorem applied at `zip = "90210"` and a
concrete network failure. -/
theorem c1_catching_handlers_witness :
    (getZipInfo (some "90210") (FetchOutcome.networkError "fetch failed")).result =
      Except.ok (textResult
        ("Error fetching data for ZIP code " ++ "90210" ++ ": " ++ "fetch failed")) :=
  (c1_catching_handlers_never_propagate (some "90210") (some "Paris")
    (FetchOutcome.networkError "fetch failed")).2.2.1 "90210" "fetch failed" (by decide)

/-- C2 (counterexample).  `get-country-data` declares `name` as a
required argument but performs no validation: invoked with `name`
missing it still makes the outbound call — with `"undefined"`
interpolated into the URL — and a network fault then propagates
unhandled instead of yielding a guidance message. -/
theorem c2_counterexample :
    (getCountryData none (FetchOutcome.networkError "fetch failed")).calls =
      ["https://restcountries.com/v3.1/name/undefined"] ∧
    (getCountryData none (FetchOutcome.networkError "fetch failed")).result =
      Except.error "fetch failed" :=
  ⟨rfl, rfl⟩

/-- C2 (amended).  `get-zip-info` and `get-city-details` do guard their
argument: invoked with it missing (or empty, which is equally falsy)
they return a guidance text and make no outbound call; `get-country-data`
does not guard `name` and performs the outbound call with `"undefined"`
in the URL. -/
theorem c2_argument_validation (u : FetchOutcome) :
    getZipInfo none u =
      { calls := [], result := Except.ok (textResult "Please provide a ZIP code.") } ∧
    getZipInfo (some "") u =
      { calls := [], result := Except.ok (textResult "Please provide a ZIP code.") } ∧
    getCityDetails none u =
      { calls := [], result := Except.ok (textResult "Please provide a city name.") } ∧
    getCityDetails (some "") u =
      { calls := [], result := Except.ok (textResult "Please provide a city name.") } ∧
    (getCountryData none u).calls = ["https://restcountries.com/v3.1/name/undefined"] :=
  ⟨rfl, rfl, rfl, rfl, rfl⟩

/-- C3.  The ZIP example: `zip="90210"` against an ok upstream response
`{places:[{"place name":"Beverly Hills","state abbreviation":"CA"}]}`
yields exactly one text item `"90210: Beverly Hills, CA"`. -/
theorem c3_zip_example :
    getZipInfo (some "90210") (FetchOutcome.response true zipExampleBody) =
      { calls := ["http://api.zippopotam.us/us/90210"],
        result := Except.ok (textResult "90210: Beverly Hills, CA") } := rfl

/-- C4.  Whenever the upstream body of `get-country-data` is not a
non-empty JSON array, the handler returns exactly one text item
`"No data found for <name>"` (whatever the status flag). -/
theorem c4_country_no_data (name : String) (ok : Bool) (body : Json)
    (h : jsIsNonemptyArray body = false) :
    (getCountryData (some name) (FetchOutcome.response ok body)).result =
      Except.ok (textResult ("No data found for " ++ name)) := by
  cases body with
  | null => rfl
  | bool b => rfl
  | num n => rfl
  | str s => rfl
  | obj fields => rfl
  | arr xs =>
    cases xs with
    | nil => rfl
    | cons x rest => exact absurd h (by simp [jsIsNonemptyArray])

/-- C4 (witness).  The theorem at `name = "Atlantis"` and an object
body (the REST-countries 404 shape). -/
theorem c4_country_no_data_witness :
    jsIsNonemptyArray (Json.obj [("status", Json.num 404)]) = false ∧
    (getCountryData (some "Atlantis")
        (FetchOutcome.response false (Json.obj [("status", Json.num 404)]))).result =
      Except.ok (textResult ("No data found for " ++ "Atlantis")) :=
  ⟨rfl, c4_country_no_data "Atlantis" false (Json.obj [("status", Json.num 404)]) rfl⟩

/-- C5.  A POST to `/jokes` whose session id has no entry in
`transports` gets HTTP 400 with the plain-text body
`"No transport found for sessionId"` — encoded by the `badRequest`
response, which invokes no transport handler. -/
theorem c5_unknown_session (m : TransportMap) (sid : String)
    (h : lookupTransport sid m = none) :
    handlePostJokes m sid =
      PostResponse.badRequest 400 "No transport found for sessionId" := by
  simp [handlePostJokes, h]

/-- C5 (witness).  The theorem at the empty map and a concrete id. -/
theorem c5_unknown_session_witness :
    lookupTransport "missing" [] = none ∧
    handlePostJokes [] "missing" =
      PostResponse.badRequest 400 "No transport found for sessionId" :=
  ⟨rfl, c5_unknown_session [] "missing" rfl⟩

/-- C6.  Unregistering a session is idempotent on every map state:
deleting the same session id twice yields the same map as deleting it
once (and `removeTransport` is a total function, so the second removal
raises no error). -/
theorem c6_unregister_idempotent (sid : String) (m : TransportMap) :
    removeTransport sid (removeTransport sid m) = removeTransport sid m := by
  simp [removeTransport, List.filter_filter]

/-- Keys present after a JavaScript-style assignment. -/
theorem mem_keys_setKey (sid k : String) (t : Transport) (m : TransportMap) :
    k ∈ (setKey sid t m).map Prod.fst ↔ k = sid ∨ k ∈ m.map Prod.fst := by
  induction m with
  | nil => simp [setKey]
  | cons p rest ih =>
    by_cases hp : p.1 = sid
    · simp [setKey, hp]
    · simp [setKey, hp, ih]
      tauto

/-- Assignment preserves distinctness of the keys. -/
theorem nodup_keys_setKey (sid : String) (t : Transport) (m : TransportMap)
    (h : (m.map Prod.fst).Nodup) : ((setKey sid t m).map Prod.fst).Nodup := by
  induction m with
  | nil => simp [setKey]
  | cons p rest ih =>
    rw [List.map_cons, List.nodup_cons] at h
    by_cases hp : p.1 = sid
    · simp only [setKey, hp, if_true, List.map_cons, List.nodup_cons]
      exact ⟨hp ▸ h.1, h.2⟩
    · simp only [setKey, hp, if_false, List.map_cons, List.nodup_cons]
      refine ⟨?_, ih h.2⟩
      rw [mem_keys_setKey]
      rintro (hc | hc)
      · exact hp hc
      · exact h.1 hc

/-- C7.  In every state of `transports` reachable by registrations and
close-handler removals, the session-id keys are pairwise distinct: each
session id maps to at most one output channel. -/
theorem c7_at_most_one_channel {m : TransportMap} (h : ReachableT m) :
    (m.map Prod.fst).Nodup := by
  induction h with
  | empty => simp
  | register t _ ih => exact nodup_keys_setKey _ _ _ ih
  | unregister sid _ ih =>
    exact List.Nodup.sublist
      (List.Sublist.map Prod.fst (List.filter_sublist _)) ih

/-- C7 (witness).  The invariant at a concrete reachable state:
register two sessions, then unregister the first. -/
theorem c7_at_most_one_channel_witness :
    ((removeTransport "s1"
        (registerTransport ⟨"s2", 1⟩ (registerTransport ⟨"s1", 0⟩ []))).map
      Prod.fst).Nodup :=
  c7_at_most_one_channel
    (ReachableT.unregister "s1"
      (ReachableT.register ⟨"s2", 1⟩ (ReachableT.register ⟨"s1", 0⟩ ReachableT.empty)))

/-- Removing one key leaves lookups of a different key unchanged. -/
theorem lookup_removeTransport_ne (sid1 sid2 : String) (hne : sid1 ≠ sid2)
    (m : TransportMap) :
    lookupTransport sid2 (removeTransport sid1 m) = lookupTransport sid2 m := by
  induction m with
  | nil => rfl
  | cons p rest ih =>
    by_cases hp : p.1 = sid1
    · have h2 : (sid2 == sid1) = false := by
        simpa using fun hc : sid2 = sid1 => hne hc.symm
      simpa [removeTransport, lookupTransport, List.lookup, hp, h2] using ih
    · by_cases hq : sid2 = p.1
      · simp [removeTransport, lookupTransport, List.lookup, hp, hq]
      · have h2 : (sid2 == p.1) = false := by simpa using hq
        simpa [removeTransport, lookupTransport, List.lookup, hp, h2] using ih

/-- C8.  Closing one session leaves another, distinct session's entry
untouched: after removing `sid1`, `sid2` still maps to the same
transport. -/
theorem c8_close_frame (sid1 sid2 : String) (t1 t2 : Transport) (m : TransportMap)
    (_h1 : lookupTransport sid1 m = some t1) (h2 : lookupTransport sid2 m = some t2)
    (hne : sid1 ≠ sid2) :
    lookupTransport sid2 (removeTransport sid1 m) = some t2 := by
  rw [lookup_removeTransport_ne sid1 sid2 hne m]
  exact h2

/-- C8 (witness).  The theorem on a concrete two-session map. -/
theorem c8_close_frame_witness :
    lookupTransport "s2"
        (removeTransport "s1" [("s1", ⟨"s1", 0⟩), ("s2", ⟨"s2", 1⟩)]) =
      some ⟨"s2", 1⟩ :=
  c8_close_frame "s1" "s2" ⟨"s1", 0⟩ ⟨"s2", 1⟩
    [("s1", ⟨"s1", 0⟩), ("s2", ⟨"s2", 1⟩)] rfl rfl (by decide)

/-- C9.  Invoking a tool name outside the registry yields the
`UnknownTool` outcome and leaves the session state untouched — the
error is non-fatal and the process keeps serving other sessions. -/
theorem c9_unknown_tool (name : String) (m : TransportMap)
    (h : name ∉ registeredToolNames) :
    invokeTool name m = (InvokeOutcome.unknownTool, m) := by
  simp [invokeTool, h]

/-- C9 (witness).  The theorem at a concrete unregistered name. -/
theorem c9_unknown_tool_witness :
    "get-knock-knock-joke" ∉ registeredToolNames ∧
    invokeTool "get-knock-knock-joke" [("s1", ⟨"s1", 0⟩)] =
      (InvokeOutcome.unknownTool, [("s1", ⟨"s1", 0⟩)]) :=
  ⟨by decide, c9_unknown_tool "get-knock-knock-joke" [("s1", ⟨"s1", 0⟩)] (by decide)⟩

/-- C10 (counterexample).  An ok body whose `places` field is an object
keyed `"0"` is not a non-empty `places` array, yet nothing throws:
`places[0]` resolves through the object key and the handler returns the
success text, which does not begin with the error message. -/
theorem c10_counterexample :
    jsGet (some zipObjectPlacesBody) "places" =
      Except.ok (some (Json.obj [("0", Json.obj [("place name", Json.str "Beverly Hills"),
        ("state abbreviation", Json.str "CA")])])) ∧
    jsIsNonemptyArray (Json.obj [("0", Json.obj [("place name", Json.str "Beverly Hills"),
        ("state abbreviation", Json.str "CA")])]) = false ∧
    (getZipInfo (some "90210") (FetchOutcome.response true zipObjectPlacesBody)).result =
      Except.ok (textResult "90210: Beverly Hills, CA") ∧
    String.isPrefixOf "Error fetching data for ZIP code" "90210: Beverly Hills, CA" = false :=
  ⟨rfl, rfl, rfl, by decide⟩

/-- C10 (amended).  If the ok body is malformed in the way that makes
the access chain throw — `places` is `undefined` or `null`, or
`places[0]` is `undefined` or `null` (e.g. `places` missing, or an
empty array) — the throw happens inside the try block and the handler
returns a single text item beginning
`"Error fetching data for ZIP code <zip>: "`. -/
theorem c10_malformed_places (zip : String) (body : Json) (hz : zip ≠ "")
    (h : placesAccessThrows body = true) :
    ∃ msg, (getZipInfo (some zip) (FetchOutcome.response true body)).result =
      Except.ok (textResult ("Error fetching data for ZIP code " ++ zip ++ ": " ++ msg)) := by
  have hzb : (zip == "") = false := by simpa using hz
  unfold placesAccessThrows at h
  rcases hp : jsGet (some body) "places" with msg | places
  · exact ⟨msg, by simp [getZipInfo, jsTruthyStr, hzb, interpStr, zipTry, hp, catchToText]⟩
  · simp only [hp] at h
    rcases hq : jsIndex0 places with msg | place
    · exact ⟨msg, by
        simp [getZipInfo, jsTruthyStr, hzb, interpStr, zipTry, hp, hq, catchToText]⟩
    · simp only [hq] at h
      rcases hr : jsGet place "place name" with msg | placeName
      · exact ⟨msg, by
          simp [getZipInfo, jsTruthyStr, hzb, interpStr, zipTry, hp, hq, hr, catchToText]⟩
      · simp [hr] at h

/-- C10 (witness).  The amended theorem at `zip = "90210"` and a body
with no `places` field, where `places[0]` throws. -/
theorem c10_malformed_places_witness :
    placesAccessThrows (Json.obj [("post code", Json.str "90210")]) = true ∧
    ∃ msg, (getZipInfo (some "90210")
        (FetchOutcome.response true (Json.obj [("post code", Json.str "90210")]))).result =
      Except.ok (textResult ("Error fetching data for ZIP code " ++ "90210" ++ ": " ++ msg)) :=
  ⟨rfl, c10_malformed_places "90210" (Json.obj [("post code", Json.str "90210")])
    (by decide) rfl⟩

end JokesMCP
